import Mathlib

/-!
# Radar scan controller: a verification development

Shallow embedding of the scan-and-publish control loop of
`src/mbed/source/main.cpp` (class `RadarService`), of the write
authorization hook of `src/test/bluetooth.cpp` (class `ClockService`) and of
the sensor, servo and update cycle of `src/test/claude.cpp` (classes
`HC_SR04`, `SG90Servo`, `RadarService`).

Conventions of the embedding

* C++ `int` fields are `Int`.  Signed overflow is undefined behaviour in C++;
  the embedding describes the executions in which it does not occur (the angle
  stays within `[0, 180]`, distances and thresholds are small).
* `uint8_t` is `Byte = Fin 256`; binding an `int` to a `const uint8_t &`
  parameter reduces it modulo 256 (`toByte`).
* `bool` is `Bool`; a `bool` bound to a `uint8_t` parameter is `1` or `0`.
* Hardware inputs (echo pin readings, timer readings, the handle returned by
  the event queue) are explicit arguments.
-/

set_option autoImplicit false

namespace Radar

/-- A single `uint8_t`. -/
abbrev Byte := Fin 256

/-- Implicit conversion `int → uint8_t` (reduction modulo 256). -/
def toByte (v : Int) : Byte := ⟨(v % 256).toNat, by omega⟩

/-- Implicit conversion `bool → uint8_t`. -/
def boolByte (b : Bool) : Byte := if b then 1 else 0

/-- Modelled from the spec: the dispatch queue of the platform, which
"runs this callback every period P" and "cancels a scheduled callback by
handle".  The queue is the list of handles of the periodic callbacks that are
currently scheduled. -/
abbrev EventQueue := List Int

/-- Modelled from the spec: `EventQueue::call_every`.  `id` is the handle the
queue hands back; the handle `0` reports that nothing could be scheduled, which
is how `start` and `onDataWritten` read it (`running_id != 0`). -/
def EventQueue.call_every (q : EventQueue) (id : Int) : EventQueue :=
  if id = 0 then q else id :: q

/-- Modelled from the spec: `EventQueue::cancel`, "cancel a scheduled callback
by handle". -/
def EventQueue.cancel (q : EventQueue) (id : Int) : EventQueue :=
  q.filter (fun h => h ≠ id)

/-- The fields of `RadarService` (main.cpp lines 319-337) together with the
outputs it drives: the four characteristic values held by the GATT server as
last assigned through `set`, the indicator pin, the servo pulse width and the
event queue. -/
structure RadarService where
  angle : Int
  direction : Bool
  running_id : Int
  distance : Int
  threshold : Int
  angle_char : Byte
  distance_char : Byte
  running_char : Byte
  threshold_char : Byte
  ledPin : Int
  servoPulse : Int
  queue : EventQueue

/-- State after the constructor: member initialisers of lines 322-328, every
characteristic constructed with initial value 0 (lines 38-41). -/
def RadarService.init : RadarService where
  angle := 0
  direction := true
  running_id := 0
  distance := 0
  threshold := 0
  angle_char := 0
  distance_char := 0
  running_char := 0
  threshold_char := 0
  ledPin := 0
  servoPulse := 0
  queue := []

/-- Value handles of the four characteristics, assigned by the GATT server when
the service is registered. -/
structure CharHandles where
  angle : Nat
  distance : Nat
  running : Nat
  threshold : Nat

/-- The fields of `GattWriteCallbackParams` read by `onDataWritten`; `data i`
is the byte found at `params.data[i]`. -/
structure GattWriteCallbackParams where
  handle : Nat
  offset : Nat
  len : Nat
  data : Nat → Byte

/-- The method `RadarService::start` (main.cpp lines 62-85).  `err` is the result of
`addService`, `id` the handle returned by `call_every`. -/
def RadarService.start (s : RadarService) (err : Nat) (id : Int) : RadarService :=
  let s := { s with servoPulse := 1500 }
  if err ≠ 0 then s
  else
    let s := { s with queue := s.queue.call_every id, running_id := id }
    { s with running_char := boolByte (decide (s.running_id ≠ 0)) }

/-- The handler `RadarService::onDataWritten` (main.cpp lines 106-139), without the
diagnostic output.  `id` is the handle `call_every` returns if it is called. -/
def RadarService.onDataWritten (hs : CharHandles) (s : RadarService)
    (params : GattWriteCallbackParams) (id : Int) : RadarService :=
  let s :=
    if params.handle = hs.running then
      let s :=
        if params.data 0 = 0 then
          { s with queue := s.queue.cancel s.running_id, running_id := 0 }
        else if params.data 0 ≠ 0 ∧ s.running_id = 0 then
          { s with queue := s.queue.call_every id, running_id := id }
        else s
      { s with running_char := boolByte (decide (s.running_id ≠ 0)) }
    else s
  if params.handle = hs.threshold then
    { s with threshold := ((params.data 0).val : Int) }
  else s

/-- The conversion `distance = duration * 0.0343 / 2` (line 223), truncated to
`int`, with `0.0343` read as the rational `343/10000`.  The double-precision
computation of the source gives the same integer for every duration below
100000, which is the range this definition stands for; at 100000 the source
computes 1714 where the rational gives 1715. -/
def distanceOfDuration (duration : Nat) : Int := ((duration : Int) * 343) / 20000

/-- The pulse width handed to `servoPin.pulsewidth_us` (lines 233-234):
`400 + angle * 2200 / 180` truncated to `int`. -/
def servoPulseOfAngle (angle : Int) : Int := Int.tdiv (72000 + angle * 2200) 180

/-- The body of `RadarService::loop` from line 222 on (main.cpp lines 222-249): `duration`
is the timer value read at line 222 once the two busy-waits are over. -/
def RadarService.loop (s : RadarService) (duration : Nat) : RadarService :=
  let s := { s with distance := distanceOfDuration duration }
  let s := if s.direction then { s with angle := s.angle + 1 }
           else { s with angle := s.angle - 1 }
  let s := { s with servoPulse := servoPulseOfAngle s.angle }
  let s := if s.angle = 180 ∨ s.angle = 0 then { s with direction := !s.direction } else s
  let s := if s.distance ≤ s.threshold then { s with ledPin := 1 } else { s with ledPin := 0 }
  let s := { s with distance_char := toByte s.distance }
  { s with angle_char := toByte s.angle }

/-- First busy-wait of `loop`, `while (!echoPin.read()) {}` (lines 207-209).
`echo i` is the `i`-th reading of the echo pin, `fuel` bounds the number of
readings; the result is the index of the first reading not yet consumed. -/
def waitEchoStart (echo : Nat → Bool) : Nat → Nat → Option Nat
  | 0, _ => none
  | fuel + 1, i => if !echo i then waitEchoStart echo fuel (i + 1) else some (i + 1)

/-- Second busy-wait of `loop`,
`while (echoPin.read() && timer.elapsed_time().count() < 1749) {}`
(lines 217-218).  `clock j` is the `j`-th reading of the timer after its reset.
The result tells whether the wait ended on the time budget (`true`) or on the
echo going low (`false`), and the index of the next timer reading. -/
def waitEchoEnd (echo : Nat → Bool) (clock : Nat → Nat) : Nat → Nat → Nat → Option (Bool × Nat)
  | 0, _, _ => none
  | fuel + 1, i, j =>
    if echo i then
      if clock j < 1749 then waitEchoEnd echo clock fuel (i + 1) (j + 1)
      else some (true, j + 1)
    else some (false, j)

/-- Outcome of the measurement phase: the value of `duration` (line 222) and
whether the echo-high wait ended on the time budget. -/
structure Measurement where
  duration : Nat
  timedOut : Bool
  deriving DecidableEq, Repr

/-- The measurement phase of `loop` (lines 207-222). -/
def measure (echo : Nat → Bool) (clock : Nat → Nat) (fuel : Nat) : Option Measurement :=
  match waitEchoStart echo fuel 0 with
  | none => none
  | some i =>
    match waitEchoEnd echo clock fuel i 0 with
    | none => none
    | some (t, j) => some { duration := clock j, timedOut := t }

/-- The whole of `RadarService::loop` (lines 196-250) on given pin and timer
readings. -/
def RadarService.loopOn (s : RadarService) (echo : Nat → Bool) (clock : Nat → Nat)
    (fuel : Nat) : Option RadarService :=
  (measure echo clock fuel).map (fun m => s.loop m.duration)

/-- What happens to the service: the period of the scheduled callback elapses
(with the duration the tick would measure), or a client write is delivered to
`onDataWritten` (with the handle `call_every` would return). -/
inductive Event where
  | tick (duration : Nat)
  | write (params : GattWriteCallbackParams) (id : Int)

/-- One step of the service: `loop` fires only while a tick is scheduled. -/
def step (hs : CharHandles) (s : RadarService) : Event → RadarService
  | .tick duration => if s.queue ≠ [] then s.loop duration else s
  | .write params id => s.onDataWritten hs params id

/-- A sequence of events. -/
def run (hs : CharHandles) (s : RadarService) (es : List Event) : RadarService :=
  es.foldl (step hs) s

/-- Successive ticks, the threshold in force and the measured duration being
given for each tick. -/
def runTicks (s : RadarService) (inputs : List (Int × Nat)) : RadarService :=
  inputs.foldl (fun s i => RadarService.loop { s with threshold := i.1 } i.2) s

/-- The event is a write to the running cell whose first byte is nonzero. -/
def Event.startsScan (hs : CharHandles) : Event → Bool
  | .tick _ => false
  | .write params _ => decide (params.handle = hs.running) && decide (params.data 0 ≠ 0)

/-- Handles used in the worked examples. -/
def demoHandles : CharHandles := { angle := 11, distance := 14, running := 17, threshold := 20 }

/-- A one-byte write at offset 0. -/
def writeByte (handle : Nat) (v : Byte) : GattWriteCallbackParams :=
  { handle := handle, offset := 0, len := 1, data := fun _ => v }

/-- A one-byte write of 45 to the threshold cell of `demoHandles`; the memory
after the payload byte holds 200, 201, and so on. -/
def thresholdWrite45 : GattWriteCallbackParams :=
  { handle := 20, offset := 0, len := 1,
    data := fun i => if i = 0 then 45 else Fin.ofNat (199 + i) }

/-- The scheduler invariant: the queue holds exactly the tick whose handle is
stored in `running_id`, and nothing when `running_id` is 0. -/
def SchedInv (s : RadarService) : Prop :=
  s.queue = (if s.running_id ≠ 0 then [s.running_id] else []) ∧
    s.running_char = boolByte (decide (s.running_id ≠ 0))

/-- The invariant of the sweep: the angle is within `[0, 180]`, and at either
bound the direction already points inward. -/
def SweepInv (s : RadarService) : Prop :=
  0 ≤ s.angle ∧ s.angle ≤ 180 ∧ (s.angle = 0 → s.direction = true) ∧
    (s.angle = 180 → s.direction = false)

/-- An echo line stuck low: the echo never arrives. -/
def echoStuckLow : Nat → Bool := fun _ => false

/-- An echo line stuck high. -/
def echoStuckHigh : Nat → Bool := fun _ => true

/-- A timer that reads 49 at its first reading and 100 more at each further
reading. -/
def coarseClock : Nat → Nat := fun j => 100 * j + 49

end Radar

namespace Bluetooth

/-- A single `uint8_t`. -/
abbrev Byte := Fin 256

/-- The values of `GattAuthCallbackReply_t` that the sources assign. -/
inductive GattAuthCallbackReply_t where
  | AUTH_CALLBACK_REPLY_SUCCESS
  | AUTH_CALLBACK_REPLY_ATTERR_INVALID_OFFSET
  | AUTH_CALLBACK_REPLY_ATTERR_INVALID_ATT_VAL_LENGTH
  | AUTH_CALLBACK_REPLY_ATTERR_WRITE_NOT_PERMITTED
  deriving DecidableEq, Repr

/-- The fields of `GattWriteAuthCallbackParams` used by the authorization hook;
`data i` is the byte found at `e->data[i]`. -/
structure GattWriteAuthCallbackParams where
  handle : Nat
  offset : Nat
  len : Nat
  data : Nat → Byte
  authorizationReply : GattAuthCallbackReply_t

open GattAuthCallbackReply_t

/-- The hook `ClockService::authorize_client_write` (bluetooth.cpp lines 237-261),
without the diagnostic output.  `angleHandle` is
`_angle_char.getValueHandle()`. -/
def ClockService.authorize_client_write (angleHandle : Nat)
    (e : GattWriteAuthCallbackParams) : GattWriteAuthCallbackParams :=
  if e.offset ≠ 0 then
    { e with authorizationReply := AUTH_CALLBACK_REPLY_ATTERR_INVALID_OFFSET }
  else if e.len ≠ 1 then
    { e with authorizationReply := AUTH_CALLBACK_REPLY_ATTERR_INVALID_ATT_VAL_LENGTH }
  else if e.data 0 ≥ 60 ∨ (e.data 0 ≥ 24 ∧ e.handle = angleHandle) then
    { e with authorizationReply := AUTH_CALLBACK_REPLY_ATTERR_WRITE_NOT_PERMITTED }
  else
    { e with authorizationReply := AUTH_CALLBACK_REPLY_SUCCESS }

/-- A write request as it reaches the hook, the reply preset to success. -/
def request (handle offset len : Nat) (data : Nat → Byte) : GattWriteAuthCallbackParams :=
  { handle := handle, offset := offset, len := len, data := data,
    authorizationReply := GattAuthCallbackReply_t.AUTH_CALLBACK_REPLY_SUCCESS }

end Bluetooth

namespace Radar

/-- The hook `RadarService::authorize_client_write` (main.cpp lines 186-194),
installed on the four characteristics by the constructor (lines 56-59): its
body is empty, so neither the service nor the request, in particular its
`authorizationReply`, is changed. -/
def RadarService.authorize_client_write (s : RadarService)
    (e : Bluetooth.GattWriteAuthCallbackParams) :
    RadarService × Bluetooth.GattWriteAuthCallbackParams :=
  (s, e)

/-- The triangle wave `180 - |180 - (n mod 360)|`. -/
def triangle (n : Nat) : Int := 180 - |180 - ((n % 360 : Nat) : Int)|

end Radar

namespace Claude

/-- The constant `SERVO_PULSE_MIN_US` (claude.cpp line 15). -/
def SERVO_PULSE_MIN_US : Int := 500

/-- The constant `SERVO_PULSE_MAX_US` (claude.cpp line 16). -/
def SERVO_PULSE_MAX_US : Int := 2400

/-- The method `SG90Servo::setAngle` (claude.cpp lines 75-80): the result is the
pulse width handed to `servoPin.pulsewidth_us`.  Integer division in C++
truncates toward zero (`Int.tdiv`). -/
def SG90Servo.setAngle (angle : Int) : Int :=
  let angle := max 0 (min angle 180)
  let pulseWidth := SERVO_PULSE_MIN_US +
    Int.tdiv (angle * (SERVO_PULSE_MAX_US - SERVO_PULSE_MIN_US)) 180
  pulseWidth

/-- How one of the two bounded waits of `HC_SR04::measureDistance` leaves:
through `return -1` after its counter exceeded the budget, or because the echo
changed level.  `next` is the index of the first echo reading not consumed,
`count` the value of the counter. -/
inductive Wait where
  | timeout (next : Nat)
  | ended (count : Nat) (next : Nat)
  deriving DecidableEq, Repr

/-- First wait of `measureDistance` (claude.cpp lines 44-49):
`while (!echoPin) { startTime++; wait_us(1); if (startTime > 23200) return -1; }`.
`echo i` is the `i`-th reading of the echo pin; `fuel` bounds the number of
iterations of the model. -/
def HC_SR04.waitEchoStart (echo : Nat → Bool) : Nat → Nat → Nat → Option Wait
  | 0, _, _ => none
  | fuel + 1, startTime, i =>
    if !echo i then
      if startTime + 1 > 23200 then some (Wait.timeout (i + 1))
      else HC_SR04.waitEchoStart echo fuel (startTime + 1) (i + 1)
    else some (Wait.ended startTime (i + 1))

/-- Second wait of `measureDistance` (claude.cpp lines 52-57):
`while (echoPin) { pulseWidth++; wait_us(1); if (pulseWidth > 23200) return -1; }`. -/
def HC_SR04.waitEchoEnd (echo : Nat → Bool) : Nat → Nat → Nat → Option Wait
  | 0, _, _ => none
  | fuel + 1, pulseWidth, i =>
    if echo i then
      if pulseWidth + 1 > 23200 then some (Wait.timeout (i + 1))
      else HC_SR04.waitEchoEnd echo fuel (pulseWidth + 1) (i + 1)
    else some (Wait.ended pulseWidth (i + 1))

/-- The conversion `pulseWidth * 0.034 / 2` (claude.cpp line 60), truncated to
`int`, with `0.034` read as the rational `34/1000`.  The double-precision
computation gives the same integer for every pulse width up to 100000. -/
def distanceOfPulse (pulseWidth : Nat) : Int := ((pulseWidth : Int) * 34) / 2000

/-- What a call of `measureDistance` produces: the returned `int` and the number
of echo readings it consumed. -/
structure Measured where
  value : Int
  polls : Nat
  deriving DecidableEq, Repr

/-- The method `HC_SR04::measureDistance` (claude.cpp lines 35-61) on the echo
readings `echo`. -/
def HC_SR04.measureDistance (echo : Nat → Bool) (fuel : Nat) : Option Measured :=
  match HC_SR04.waitEchoStart echo fuel 0 0 with
  | none => none
  | some (Wait.timeout n) => some { value := -1, polls := n }
  | some (Wait.ended _ i) =>
    match HC_SR04.waitEchoEnd echo fuel 0 i with
    | none => none
    | some (Wait.timeout n) => some { value := -1, polls := n }
    | some (Wait.ended pulseWidth n) => some { value := distanceOfPulse pulseWidth, polls := n }

/-- The readings make one of the two waits exceed its budget of 23200: either
the first 23201 readings are all low, or the echo goes high at reading `k`
(within the budget) and the 23201 readings that follow are all high. -/
def ExceedsBudget (echo : Nat → Bool) : Prop :=
  (∀ i, i < 23201 → echo i = false) ∨
    ∃ k, k < 23201 ∧ (∀ i, i < k → echo i = false) ∧ echo k = true ∧
      ∀ i, i < 23201 → echo (k + 1 + i) = true

/-- The characteristics of the service of claude.cpp. -/
inductive Characteristic where
  | angle
  | distance
  | running
  deriving DecidableEq, Repr

/-- The fields of `RadarService` in claude.cpp (lines 184-189) and the pulse
width last commanded to the servo. -/
structure RadarService where
  _lastDistance : Int
  _lastAngle : Int
  _currentAngle : Int
  _scanDirection : Int
  _running : Bool
  _running_id : Int
  servoPulse : Int

/-- State after the constructor (member initialisers of lines 184-189); the
servo is constructed with `setAngle(90)`. -/
def RadarService.init : RadarService where
  _lastDistance := 0
  _lastAngle := 0
  _currentAngle := 0
  _scanDirection := 1
  _running := true
  _running_id := 0
  servoPulse := SG90Servo.setAngle 90

/-- The method `RadarService::update` (claude.cpp lines 127-152).  `distance` is
the value `measureDistance` returns when it is called; the second component
lists the writes made to the GATT server in this call, in order. -/
def RadarService.update (s : RadarService) (distance : Int) :
    RadarService × List (Characteristic × Int) :=
  if !s._running then
    ({ s with servoPulse := SG90Servo.setAngle s._currentAngle }, [])
  else
    let s := { s with servoPulse := SG90Servo.setAngle s._currentAngle }
    let r : RadarService × List (Characteristic × Int) :=
      if |distance - s._lastDistance| > 2 ∨ |s._currentAngle - s._lastAngle| > 2 then
        ({ s with _lastDistance := distance, _lastAngle := s._currentAngle },
          [(Characteristic.distance, distance), (Characteristic.angle, s._currentAngle)])
      else (s, [])
    let s := r.1
    let s := { s with _currentAngle := s._currentAngle + s._scanDirection }
    let s := if s._currentAngle ≥ 180 ∨ s._currentAngle ≤ 0 then
               { s with _scanDirection := s._scanDirection * -1 }
             else s
    (s, r.2)

/-- The method `RadarService::update` on given echo readings. -/
def RadarService.updateOn (s : RadarService) (echo : Nat → Bool) (fuel : Nat) :
    Option (RadarService × List (Characteristic × Int)) :=
  if s._running then (HC_SR04.measureDistance echo fuel).map (fun r => s.update r.value)
  else some (s.update 0)

/-- An echo that is low for 3 readings, high for 60 and low afterwards. -/
def echoPulse : Nat → Bool := fun i => decide (3 ≤ i) && decide (i < 63)

end Claude

namespace Radar

/-! ## Projections of one tick -/

theorem loop_angle (s : RadarService) (d : Nat) :
    (s.loop d).angle = if s.direction then s.angle + 1 else s.angle - 1 := by
  unfold RadarService.loop
  cases hd : s.direction <;> simp [hd] <;> split_ifs <;> rfl

theorem loop_direction (s : RadarService) (d : Nat) :
    (s.loop d).direction =
      if (s.loop d).angle = 180 ∨ (s.loop d).angle = 0 then !s.direction else s.direction := by
  rw [loop_angle]
  unfold RadarService.loop
  cases hd : s.direction <;> simp [hd] <;> split_ifs <;> simp_all <;> omega

theorem loop_distance (s : RadarService) (d : Nat) :
    (s.loop d).distance = distanceOfDuration d := by
  unfold RadarService.loop
  cases hd : s.direction <;> simp [hd] <;> split_ifs <;> rfl

theorem loop_threshold (s : RadarService) (d : Nat) :
    (s.loop d).threshold = s.threshold := by
  unfold RadarService.loop
  cases hd : s.direction <;> simp [hd] <;> split_ifs <;> rfl

theorem loop_ledPin (s : RadarService) (d : Nat) :
    (s.loop d).ledPin = if distanceOfDuration d ≤ s.threshold then 1 else 0 := by
  unfold RadarService.loop
  cases hd : s.direction <;> simp [hd] <;> split_ifs <;> rfl

theorem loop_distance_char (s : RadarService) (d : Nat) :
    (s.loop d).distance_char = toByte (distanceOfDuration d) := by
  unfold RadarService.loop
  cases hd : s.direction <;> simp [hd] <;> split_ifs <;> rfl

theorem loop_running_id (s : RadarService) (d : Nat) :
    (s.loop d).running_id = s.running_id := by
  unfold RadarService.loop
  cases hd : s.direction <;> simp [hd] <;> split_ifs <;> rfl

theorem loop_queue (s : RadarService) (d : Nat) : (s.loop d).queue = s.queue := by
  unfold RadarService.loop
  cases hd : s.direction <;> simp [hd] <;> split_ifs <;> rfl

theorem loop_running_char (s : RadarService) (d : Nat) :
    (s.loop d).running_char = s.running_char := by
  unfold RadarService.loop
  cases hd : s.direction <;> simp [hd] <;> split_ifs <;> rfl

/-! ## The sweep stays inside its bounds -/

theorem sweepInv_init : SweepInv RadarService.init := by
  simp [SweepInv, RadarService.init]

theorem sweepInv_loop (s : RadarService) (d : Nat) (h : SweepInv s) : SweepInv (s.loop d) := by
  obtain ⟨h0, h1, hlo, hhi⟩ := h
  unfold SweepInv
  rw [loop_direction, loop_angle]
  cases hd : s.direction
  · have hne : s.angle ≠ 0 := fun h => by simp [hlo h] at hd
    simp only [Bool.false_eq_true, if_false, Bool.not_false]
    refine ⟨by omega, by omega, ?_, ?_⟩
    · intro h; simp [h]
    · intro h; omega
  · have hne : s.angle ≠ 180 := fun h => by simp [hhi h] at hd
    simp only [if_true, Bool.not_true]
    refine ⟨by omega, by omega, ?_, ?_⟩
    · intro h; omega
    · intro h; simp [h]

theorem sweepInv_threshold (s : RadarService) (t : Int) (h : SweepInv s) :
    SweepInv { s with threshold := t } := h

theorem sweepInv_runTicks (inputs : List (Int × Nat)) :
    ∀ s : RadarService, SweepInv s → SweepInv (runTicks s inputs) := by
  induction inputs with
  | nil => intro s h; exact h
  | cons i rest ih =>
    intro s h
    exact ih _ (sweepInv_loop _ _ (sweepInv_threshold s i.1 h))

/-- C1. Starting from the initial scan state, after any number of ticks of
`RadarService::loop`, whatever the measured durations and the thresholds, the
angle lies in `[0, 180]`. -/
theorem angle_within_bounds (inputs : List (Int × Nat)) :
    0 ≤ (runTicks RadarService.init inputs).angle ∧
      (runTicks RadarService.init inputs).angle ≤ 180 :=
  let h := sweepInv_runTicks inputs RadarService.init sweepInv_init
  ⟨h.1, h.2.1⟩

/-- C2. One tick of `RadarService::loop` moves the angle by exactly `+1` when
the direction is increasing and by exactly `-1` when it is decreasing; the
direction changes exactly when the new angle is 0 or 180; from angle 0 with the
direction increasing the tick gives angle 1 and leaves the direction alone. -/
theorem loop_advances_angle (s : RadarService) (d : Nat) :
    (s.loop d).angle = (if s.direction then s.angle + 1 else s.angle - 1) ∧
      ((s.loop d).direction ≠ s.direction ↔
        ((s.loop d).angle = 0 ∨ (s.loop d).angle = 180)) ∧
      (RadarService.loop { s with angle := 0, direction := true } d).angle = 1 ∧
      (RadarService.loop { s with angle := 0, direction := true } d).direction = true := by
  refine ⟨loop_angle s d, ?_, ?_, ?_⟩
  · rw [loop_direction]
    by_cases h : (s.loop d).angle = 180 ∨ (s.loop d).angle = 0
    · rw [if_pos h]
      constructor
      · intro _; exact h.symm
      · intro _; cases s.direction <;> simp
    · rw [if_neg h]
      constructor
      · intro hc; exact absurd rfl hc
      · intro hc; exact absurd hc.symm h
  · rw [loop_angle]; simp
  · rw [loop_direction, loop_angle]; simp

theorem onDataWritten_angle (hs : CharHandles) (s : RadarService)
    (p : GattWriteCallbackParams) (id : Int) : (s.onDataWritten hs p id).angle = s.angle := by
  unfold RadarService.onDataWritten
  split_ifs <;> rfl

theorem cancel_singleton (id : Int) : EventQueue.cancel [id] id = [] := by
  simp [EventQueue.cancel]

theorem cancel_nil (id : Int) : EventQueue.cancel [] id = [] := by
  simp [EventQueue.cancel]

theorem schedInv_start (err : Nat) (id : Int) : SchedInv (RadarService.init.start err id) := by
  unfold SchedInv RadarService.start
  by_cases he : err = 0 <;> by_cases hi : id = 0 <;>
    simp [he, hi, RadarService.init, EventQueue.call_every, boolByte]

theorem schedInv_loop (s : RadarService) (d : Nat) (h : SchedInv s) : SchedInv (s.loop d) := by
  unfold SchedInv
  rw [loop_queue, loop_running_id, loop_running_char]
  exact h

theorem schedInv_onDataWritten (hs : CharHandles) (s : RadarService)
    (p : GattWriteCallbackParams) (id : Int) (h : SchedInv s) :
    SchedInv (s.onDataWritten hs p id) := by
  obtain ⟨hq, hc⟩ := h
  unfold SchedInv RadarService.onDataWritten
  by_cases hr : p.handle = hs.running <;> by_cases ht : p.handle = hs.threshold <;>
    by_cases hd : p.data 0 = 0 <;> by_cases hz : s.running_id = 0 <;>
    by_cases hi : id = 0 <;>
    simp_all [EventQueue.cancel, EventQueue.call_every, boolByte]

theorem schedInv_step (hs : CharHandles) (s : RadarService) (e : Event) (h : SchedInv s) :
    SchedInv (step hs s e) := by
  cases e with
  | tick d =>
    unfold step
    split_ifs
    · exact schedInv_loop s d h
    · exact h
  | write p id => exact schedInv_onDataWritten hs s p id h

theorem schedInv_run (hs : CharHandles) (es : List Event) :
    ∀ s : RadarService, SchedInv s → SchedInv (run hs s es) := by
  induction es with
  | nil => intro s h; exact h
  | cons e rest ih => intro s h; exact ih _ (schedInv_step hs s e h)

theorem schedInv_length (s : RadarService) (h : SchedInv s) :
    s.queue.length ≤ 1 ∧ (s.queue.length = 1 ↔ s.running_id ≠ 0) := by
  obtain ⟨hq, _⟩ := h
  by_cases hz : s.running_id = 0 <;> simp [hq, hz]

theorem schedInv_running_char (s : RadarService) (h : SchedInv s) :
    s.running_char = if s.queue.length = 1 then 1 else 0 := by
  obtain ⟨hq, hc⟩ := h
  by_cases hz : s.running_id = 0 <;> simp [hq, hc, hz, boolByte]

/-- While nothing is scheduled, an event that is not a start write leaves the
angle alone and schedules nothing. -/
theorem step_stopped (hs : CharHandles) (s : RadarService) (e : Event)
    (hq : s.queue = []) (he : e.startsScan hs = false) :
    (step hs s e).queue = [] ∧ (step hs s e).angle = s.angle := by
  cases e with
  | tick d => simp [step, hq]
  | write p id =>
    refine ⟨?_, onDataWritten_angle hs s p id⟩
    simp only [Event.startsScan, Bool.and_eq_false_imp, decide_eq_true_eq,
      decide_eq_false_iff_not, not_not] at he
    unfold step RadarService.onDataWritten
    by_cases hr : p.handle = hs.running
    · have hd := he hr
      by_cases ht : p.handle = hs.threshold <;> simp_all [EventQueue.cancel]
    · by_cases ht : p.handle = hs.threshold <;> simp_all

theorem run_stopped (hs : CharHandles) (es : List Event) :
    ∀ s : RadarService, s.queue = [] → (∀ e ∈ es, e.startsScan hs = false) →
      (run hs s es).angle = s.angle := by
  induction es with
  | nil => intro s _ _; rfl
  | cons e rest ih =>
    intro s hq hes
    have h1 := step_stopped hs s e hq (hes e (List.mem_cons_self _ _))
    have h2 := ih (step hs s e) h1.1 (fun e' he' => hes e' (List.mem_cons_of_mem _ he'))
    unfold run at h2 ⊢
    rw [List.foldl_cons, h2, h1.2]

/-- C4. After `onDataWritten` has handled a write to the running cell whose
first byte is 0, `running_id` is 0, no tick is scheduled any more and the
running cell holds 0; from then on the angle does not change over any sequence
of events that contains no write to the running cell with a nonzero first
byte. -/
theorem stop_write_cancels_tick (hs : CharHandles) (err : Nat) (id0 : Int)
    (pre : List Event) (p : GattWriteCallbackParams) (id : Int) (post : List Event)
    (hp : p.handle = hs.running) (hd : p.data 0 = 0)
    (hpost : ∀ e ∈ post, e.startsScan hs = false) :
    ((run hs (RadarService.init.start err id0) pre).onDataWritten hs p id).running_id = 0 ∧
      ((run hs (RadarService.init.start err id0) pre).onDataWritten hs p id).queue = [] ∧
      ((run hs (RadarService.init.start err id0) pre).onDataWritten hs p id).running_char = 0 ∧
      (run hs ((run hs (RadarService.init.start err id0) pre).onDataWritten hs p id) post).angle
        = ((run hs (RadarService.init.start err id0) pre).onDataWritten hs p id).angle := by
  have hinv := schedInv_run hs pre _ (schedInv_start err id0)
  generalize run hs (RadarService.init.start err id0) pre = s at hinv ⊢
  have hq : (s.onDataWritten hs p id).queue = [] := by
    obtain ⟨hq, _⟩ := hinv
    unfold RadarService.onDataWritten
    by_cases ht : p.handle = hs.threshold <;> by_cases hz : s.running_id = 0 <;>
      simp_all [EventQueue.cancel]
  refine ⟨?_, hq, ?_, run_stopped hs post _ hq hpost⟩
  · unfold RadarService.onDataWritten
    by_cases ht : p.handle = hs.threshold <;> simp_all
  · unfold RadarService.onDataWritten
    by_cases ht : p.handle = hs.threshold <;> simp_all [boolByte]

/-- Witness for C4: start, two ticks, a stop write, then a tick, a threshold
write and another tick. -/
theorem stop_write_cancels_tick_witness :
    (writeByte 17 0).handle = demoHandles.running ∧ (writeByte 17 0).data 0 = 0 ∧
      (∀ e ∈ [Event.tick 300, Event.write (writeByte 20 45) 9, Event.tick 500],
        e.startsScan demoHandles = false) ∧
      (((run demoHandles (RadarService.init.start 0 7) [Event.tick 100, Event.tick 200]).onDataWritten
          demoHandles (writeByte 17 0) 8).running_id = 0 ∧
        ((run demoHandles (RadarService.init.start 0 7) [Event.tick 100, Event.tick 200]).onDataWritten
          demoHandles (writeByte 17 0) 8).queue = [] ∧
        ((run demoHandles (RadarService.init.start 0 7) [Event.tick 100, Event.tick 200]).onDataWritten
          demoHandles (writeByte 17 0) 8).running_char = 0 ∧
        (run demoHandles
            ((run demoHandles (RadarService.init.start 0 7)
              [Event.tick 100, Event.tick 200]).onDataWritten demoHandles (writeByte 17 0) 8)
            [Event.tick 300, Event.write (writeByte 20 45) 9, Event.tick 500]).angle
          = ((run demoHandles (RadarService.init.start 0 7)
              [Event.tick 100, Event.tick 200]).onDataWritten
                demoHandles (writeByte 17 0) 8).angle) :=
  ⟨rfl, rfl, by decide,
    stop_write_cancels_tick demoHandles 0 7 [Event.tick 100, Event.tick 200] (writeByte 17 0) 8
      [Event.tick 300, Event.write (writeByte 20 45) 9, Event.tick 500] rfl rfl (by decide)⟩

/-- C5. After `start` and any sequence of ticks and writes, at most one
periodic tick is scheduled, and one is scheduled exactly when `running_id` is
not 0; the running cell reads 1 exactly when a tick is scheduled and 0
otherwise.  A write to the running cell with a nonzero first byte, the queue
handing out a nonzero handle, schedules a tick when none is scheduled and
otherwise leaves the queue and `running_id` as they are; the same invariant
holds after the write. -/
theorem at_most_one_tick_scheduled (hs : CharHandles) (err : Nat) (id0 : Int)
    (es : List Event) (p : GattWriteCallbackParams) (id : Int)
    (hp : p.handle = hs.running) (hd : p.data 0 ≠ 0) (hid : id ≠ 0) :
    ((run hs (RadarService.init.start err id0) es).queue.length ≤ 1 ∧
      ((run hs (RadarService.init.start err id0) es).queue.length = 1 ↔
        (run hs (RadarService.init.start err id0) es).running_id ≠ 0) ∧
      (run hs (RadarService.init.start err id0) es).running_char =
        (if (run hs (RadarService.init.start err id0) es).queue.length = 1 then 1 else 0)) ∧
    (((run hs (RadarService.init.start err id0) es).queue = [] ∧
        ((run hs (RadarService.init.start err id0) es).onDataWritten hs p id).queue = [id] ∧
        ((run hs (RadarService.init.start err id0) es).onDataWritten hs p id).running_id = id) ∨
      ((run hs (RadarService.init.start err id0) es).queue.length = 1 ∧
        ((run hs (RadarService.init.start err id0) es).onDataWritten hs p id).queue =
          (run hs (RadarService.init.start err id0) es).queue ∧
        ((run hs (RadarService.init.start err id0) es).onDataWritten hs p id).running_id =
          (run hs (RadarService.init.start err id0) es).running_id)) ∧
    (((run hs (RadarService.init.start err id0) es).onDataWritten hs p id).queue.length = 1 ∧
      ((run hs (RadarService.init.start err id0) es).onDataWritten hs p id).running_id ≠ 0 ∧
      ((run hs (RadarService.init.start err id0) es).onDataWritten hs p id).running_char = 1) := by
  have hinv := schedInv_run hs es _ (schedInv_start err id0)
  generalize run hs (RadarService.init.start err id0) es = s at hinv ⊢
  have hlen := schedInv_length s hinv
  refine ⟨⟨hlen.1, hlen.2, schedInv_running_char s hinv⟩, ?_, ?_⟩
  · obtain ⟨hq, _⟩ := hinv
    unfold RadarService.onDataWritten
    by_cases hz : s.running_id = 0
    · left
      by_cases ht : p.handle = hs.threshold <;> simp_all [EventQueue.call_every]
    · right
      by_cases ht : p.handle = hs.threshold <;> simp_all
  · obtain ⟨hq, _⟩ := hinv
    unfold RadarService.onDataWritten
    by_cases hz : s.running_id = 0 <;> by_cases ht : p.handle = hs.threshold <;>
      simp_all [EventQueue.call_every, boolByte]

/-- Witness for C5: the scan is stopped by a write of 0 and started again. -/
theorem at_most_one_tick_scheduled_witness :
    (writeByte 17 1).handle = demoHandles.running ∧ (writeByte 17 1).data 0 ≠ 0 ∧
      (9 : Int) ≠ 0 ∧
      (run demoHandles (RadarService.init.start 0 7)
          [Event.tick 100, Event.write (writeByte 17 0) 8]).queue = [] ∧
      ((run demoHandles (RadarService.init.start 0 7)
          [Event.tick 100, Event.write (writeByte 17 0) 8]).onDataWritten demoHandles
            (writeByte 17 1) 9).queue = [9] ∧
      ((run demoHandles (RadarService.init.start 0 7)
          [Event.tick 100, Event.write (writeByte 17 0) 8]).onDataWritten demoHandles
            (writeByte 17 1) 9).running_char = 1 :=
  ⟨rfl, by decide, by decide, by decide, by decide,
    (at_most_one_tick_scheduled demoHandles 0 7
      [Event.tick 100, Event.write (writeByte 17 0) 8] (writeByte 17 1) 9 rfl (by decide)
      (by decide)).2.2.2.2⟩

/-! ## Alert output and published distance -/

theorem distanceOfDuration_nonneg (d : Nat) : 0 ≤ distanceOfDuration d := by
  unfold distanceOfDuration
  exact Int.ediv_nonneg (by positivity) (by decide)

theorem toByte_val (v : Int) : ((toByte v).val : Int) = v % 256 := by
  unfold toByte
  simp only
  omega

/-- C6, as stated, fails: a tick whose duration reads 15000 computes the
distance 257, and the distance cell, one byte wide, receives 1. -/
theorem distance_cell_truncates_counterexample :
    (RadarService.init.loop 15000).distance = 257 ∧
      (RadarService.init.loop 15000).distance_char = 1 ∧
      (((RadarService.init.loop 15000).distance_char).val : Int)
        ≠ (RadarService.init.loop 15000).distance := by
  rw [loop_distance, loop_distance_char]
  decide

/-- C6, amended. After every tick the indicator is 1 exactly when the distance
computed in that tick is at most the threshold, and 0 otherwise; the value
written to the distance cell is that distance modulo 256, hence that same
distance unless it exceeds 255.  With threshold 20, a tick measuring 25 clears
the indicator and a following tick measuring 15 asserts it and publishes 15. -/
theorem loop_alert_and_publish (s : RadarService) (d : Nat) :
    (s.loop d).distance = distanceOfDuration d ∧
      ((s.loop d).ledPin = 1 ↔ (s.loop d).distance ≤ s.threshold) ∧
      ((s.loop d).ledPin = 0 ↔ s.threshold < (s.loop d).distance) ∧
      (((s.loop d).distance_char).val : Int) = (s.loop d).distance % 256 ∧
      ((((s.loop d).distance_char).val : Int) = (s.loop d).distance ∨
        255 < (s.loop d).distance) ∧
      (RadarService.loop { s with threshold := 20 } 1458).distance = 25 ∧
      (RadarService.loop { s with threshold := 20 } 1458).ledPin = 0 ∧
      ((RadarService.loop { s with threshold := 20 } 1458).loop 875).distance = 15 ∧
      ((RadarService.loop { s with threshold := 20 } 1458).loop 875).ledPin = 1 ∧
      ((RadarService.loop { s with threshold := 20 } 1458).loop 875).distance_char = 15 := by
  have hnn := distanceOfDuration_nonneg d
  refine ⟨loop_distance s d, ?_, ?_, ?_, ?_, ?_, ?_, ?_, ?_, ?_⟩
  · rw [loop_ledPin, loop_distance]
    split_ifs with h <;> simp [h]
  · rw [loop_ledPin, loop_distance]
    split_ifs with h
    · simp only [one_ne_zero, false_iff, not_lt]; exact h
    · simp only [true_iff]; omega
  · rw [loop_distance_char, loop_distance, toByte_val]
  · rw [loop_distance_char, loop_distance, toByte_val]
    omega
  · rw [loop_distance]; decide
  · rw [loop_ledPin]
    show (if distanceOfDuration 1458 ≤ (20 : Int) then (1 : Int) else 0) = 0
    decide
  · rw [loop_distance]; decide
  · rw [loop_ledPin, loop_threshold]
    show (if distanceOfDuration 875 ≤ (20 : Int) then (1 : Int) else 0) = 1
    decide
  · rw [loop_distance_char]; decide

/-! ## The measurement phase -/

theorem waitEchoEnd_timedOut (echo : Nat → Bool) (clock : Nat → Nat) :
    ∀ fuel i j k, waitEchoEnd echo clock fuel i j = some (true, k) →
      ∃ j0, k = j0 + 1 ∧ 1749 ≤ clock j0 := by
  intro fuel
  induction fuel with
  | zero => intro i j k h; simp [waitEchoEnd] at h
  | succ n ih =>
    intro i j k h
    unfold waitEchoEnd at h
    split_ifs at h with he hc
    · exact ih _ _ _ h
    · simp only [Option.some.injEq, Prod.mk.injEq, true_and] at h
      exact ⟨j, h.symm, by omega⟩
    · simp at h

/-- The echo-high wait is bounded by the timer: once a timer reading has
reached the budget, the wait is over, whatever the echo does. -/
theorem waitEchoEnd_returns (echo : Nat → Bool) (clock : Nat → Nat) :
    ∀ n i j, 1749 ≤ clock (j + n) → (waitEchoEnd echo clock (n + 1) i j).isSome = true := by
  intro n
  induction n with
  | zero =>
    intro i j h
    unfold waitEchoEnd
    have hc : ¬ clock j < 1749 := by simpa using h
    split_ifs <;> rfl
  | succ m ih =>
    intro i j h
    unfold waitEchoEnd
    split_ifs
    · exact ih (i + 1) (j + 1) (by rw [show j + 1 + m = j + (m + 1) by omega]; exact h)
    · rfl
    · rfl

theorem waitEchoStart_stuck_low : ∀ fuel i, waitEchoStart echoStuckLow fuel i = none := by
  intro fuel
  induction fuel with
  | zero => intro i; rfl
  | succ n ih => intro i; simp [waitEchoStart, echoStuckLow, ih]

theorem measure_timedOut (echo : Nat → Bool) (clock : Nat → Nat) (fuel : Nat) (m : Measurement)
    (hmono : Monotone clock) (hm : measure echo clock fuel = some m) (ht : m.timedOut = true) :
    1749 ≤ m.duration := by
  unfold measure at hm
  cases h1 : waitEchoStart echo fuel 0 with
  | none => simp [h1] at hm
  | some i =>
    rw [h1] at hm
    simp only at hm
    cases h2 : waitEchoEnd echo clock fuel i 0 with
    | none => simp [h2] at hm
    | some r =>
      obtain ⟨t, k⟩ := r
      rw [h2] at hm
      simp only [Option.some.injEq] at hm
      subst hm
      simp only at ht
      subst ht
      obtain ⟨j0, hk, hj0⟩ := waitEchoEnd_timedOut echo clock fuel i 0 k h2
      subst hk
      exact le_trans hj0 (hmono (Nat.le_succ j0))

/-- C7, as stated, fails: the previous tick published 12; the next measurement
times out (echo stuck high) and the tick publishes 31, computed from the timer
value 1849. -/
theorem timeout_overwrites_distance_counterexample :
    (RadarService.init.loop 700).distance_char = 12 ∧
      measure echoStuckHigh coarseClock 100 = some { duration := 1849, timedOut := true } ∧
      ((RadarService.init.loop 700).loopOn echoStuckHigh coarseClock 100).map
        (fun s => s.distance) = some 31 ∧
      ((RadarService.init.loop 700).loopOn echoStuckHigh coarseClock 100).map
        (fun s => s.distance_char) = some 31 := by
  have hm : measure echoStuckHigh coarseClock 100 = some { duration := 1849, timedOut := true } := by
    decide
  refine ⟨?_, hm, ?_, ?_⟩
  · rw [loop_distance_char]; decide
  · rw [RadarService.loopOn, hm]
    simp only [Option.map_some', Option.some.injEq]
    rw [loop_distance]; decide
  · rw [RadarService.loopOn, hm]
    simp only [Option.map_some', Option.some.injEq]
    rw [loop_distance_char]; decide

/-- C7, amended. When the measurement times out, the timer not running
backwards, the tick completes and does not keep the previous distance: the
timer value read after the wait is at least 1749 and, as long as it is below
100000 (the range on which the double-precision conversion of line 223 equals
`duration * 343 / 20000`), the distance is `duration * 343 / 20000`, between 29
and 1714, and that value, reduced to one byte, goes to the distance cell,
whatever the previous tick published. -/
theorem timed_out_measurement_publishes_elapsed (s : RadarService) (echo : Nat → Bool)
    (clock : Nat → Nat) (fuel : Nat) (m : Measurement)
    (hmono : Monotone clock) (hm : measure echo clock fuel = some m)
    (ht : m.timedOut = true) (hrange : m.duration < 100000) :
    s.loopOn echo clock fuel = some (s.loop m.duration) ∧
      1749 ≤ m.duration ∧
      (s.loop m.duration).distance = ((m.duration : Int) * 343) / 20000 ∧
      29 ≤ (s.loop m.duration).distance ∧
      (s.loop m.duration).distance ≤ 1714 ∧
      (s.loop m.duration).distance_char = toByte (((m.duration : Int) * 343) / 20000) := by
  have hd := measure_timedOut echo clock fuel m hmono hm ht
  have hr : ((m.duration : Nat) : Int) < 100000 := by exact_mod_cast hrange
  refine ⟨by simp [RadarService.loopOn, hm], hd, loop_distance _ _, ?_, ?_,
    loop_distance_char _ _⟩
  · rw [loop_distance]
    unfold distanceOfDuration
    omega
  · rw [loop_distance]
    unfold distanceOfDuration
    omega

theorem coarseClock_monotone : Monotone coarseClock := by
  intro a b h
  unfold coarseClock
  omega

/-- Witness for C7 (amended): echo stuck high, timer read every 100 units. -/
theorem timed_out_measurement_publishes_elapsed_witness :
    Monotone coarseClock ∧
      measure echoStuckHigh coarseClock 100 = some { duration := 1849, timedOut := true } ∧
      (1849 : Nat) < 100000 ∧
      (RadarService.init.loop 700).loopOn echoStuckHigh coarseClock 100
        = some ((RadarService.init.loop 700).loop 1849) ∧
      29 ≤ ((RadarService.init.loop 700).loop 1849).distance :=
  ⟨coarseClock_monotone, by decide, by decide,
    (timed_out_measurement_publishes_elapsed (RadarService.init.loop 700) echoStuckHigh
      coarseClock 100 { duration := 1849, timedOut := true } coarseClock_monotone (by decide)
      rfl (by decide)).1,
    (timed_out_measurement_publishes_elapsed (RadarService.init.loop 700) echoStuckHigh
      coarseClock 100 { duration := 1849, timedOut := true } coarseClock_monotone (by decide)
      rfl (by decide)).2.2.2.1⟩

/-- C8: on an echo line stuck low the first busy-wait of `RadarService::loop`
consumes every reading it is given without ending, so neither the measurement
phase nor the tick returns, whatever the timer reads and however many readings
are allowed. -/
theorem loop_hangs_on_silent_echo (s : RadarService) (clock : Nat → Nat) (fuel : Nat) :
    waitEchoStart echoStuckLow fuel 0 = none ∧
      measure echoStuckLow clock fuel = none ∧
      s.loopOn echoStuckLow clock fuel = none := by
  have h := waitEchoStart_stuck_low fuel 0
  have hm : measure echoStuckLow clock fuel = none := by simp [measure, h]
  exact ⟨h, hm, by simp [RadarService.loopOn, hm]⟩

end Radar

namespace Bluetooth

open GattAuthCallbackReply_t

/-- C9. Whatever the target cell, the length and the payload, a write request
whose offset is not 0 gets the reply `AUTH_CALLBACK_REPLY_ATTERR_INVALID_OFFSET`
from `ClockService::authorize_client_write`. -/
theorem nonzero_offset_rejected (angleHandle : Nat) (e : GattWriteAuthCallbackParams)
    (h : e.offset ≠ 0) :
    (ClockService.authorize_client_write angleHandle e).authorizationReply
      = AUTH_CALLBACK_REPLY_ATTERR_INVALID_OFFSET := by
  unfold ClockService.authorize_client_write
  rw [if_pos h]

/-- Witness for C9: a one-byte write of 5 at offset 3. -/
theorem nonzero_offset_rejected_witness :
    (request 11 3 1 (fun _ => 5)).offset ≠ 0 ∧
      (ClockService.authorize_client_write 11 (request 11 3 1 (fun _ => 5))).authorizationReply
        = AUTH_CALLBACK_REPLY_ATTERR_INVALID_OFFSET :=
  ⟨by decide, nonzero_offset_rejected 11 (request 11 3 1 (fun _ => 5)) (by decide)⟩

/-- C10. A write request whose length is not 1 is never authorized by
`ClockService::authorize_client_write`: the reply is
`AUTH_CALLBACK_REPLY_ATTERR_INVALID_ATT_VAL_LENGTH` when the offset is 0 and
`AUTH_CALLBACK_REPLY_ATTERR_INVALID_OFFSET` when it is not (the offset check
comes first), and the reply is the same for every payload: the payload is not
consulted. -/
theorem wrong_length_rejected (angleHandle : Nat) (e : GattWriteAuthCallbackParams)
    (h : e.len ≠ 1) :
    (ClockService.authorize_client_write angleHandle e).authorizationReply
        ≠ AUTH_CALLBACK_REPLY_SUCCESS ∧
      (ClockService.authorize_client_write angleHandle e).authorizationReply
        = (if e.offset = 0 then AUTH_CALLBACK_REPLY_ATTERR_INVALID_ATT_VAL_LENGTH
            else AUTH_CALLBACK_REPLY_ATTERR_INVALID_OFFSET) ∧
      ∀ data : Nat → Byte,
        (ClockService.authorize_client_write angleHandle { e with data := data }).authorizationReply
          = (ClockService.authorize_client_write angleHandle e).authorizationReply := by
  unfold ClockService.authorize_client_write
  by_cases ho : e.offset = 0
  · simp [ho, h]
  · simp [ho]

/-- Witness for C10: an empty write at offset 0. -/
theorem wrong_length_rejected_witness :
    (request 11 0 0 (fun _ => 5)).len ≠ 1 ∧
      (ClockService.authorize_client_write 11 (request 11 0 0 (fun _ => 5))).authorizationReply
        = AUTH_CALLBACK_REPLY_ATTERR_INVALID_ATT_VAL_LENGTH :=
  ⟨by decide, (wrong_length_rejected 11 (request 11 0 0 (fun _ => 5)) (by decide)).2.1⟩

end Bluetooth

namespace Bluetooth

open GattAuthCallbackReply_t

/-- C11. The reply of `ClockService::authorize_client_write` is success exactly
when the offset is 0, the length is 1, the payload byte is below 60 and, for
the angle cell, below 24; a one-byte write at offset 0 with any other payload
byte gets `AUTH_CALLBACK_REPLY_ATTERR_WRITE_NOT_PERMITTED`; every request gets
one of the four replies. -/
theorem authorize_reply_characterised (angleHandle : Nat) (e : GattWriteAuthCallbackParams) :
    ((ClockService.authorize_client_write angleHandle e).authorizationReply
        = AUTH_CALLBACK_REPLY_SUCCESS ↔
      (e.offset = 0 ∧ e.len = 1 ∧ (e.data 0).val < 60 ∧
        (e.handle ≠ angleHandle ∨ (e.data 0).val < 24))) ∧
      (ClockService.authorize_client_write angleHandle
          { e with offset := 0, len := 1 }).authorizationReply
        = (if (e.data 0).val < 60 ∧ (e.handle ≠ angleHandle ∨ (e.data 0).val < 24) then
            AUTH_CALLBACK_REPLY_SUCCESS
          else AUTH_CALLBACK_REPLY_ATTERR_WRITE_NOT_PERMITTED) ∧
      ((ClockService.authorize_client_write angleHandle e).authorizationReply
          = AUTH_CALLBACK_REPLY_SUCCESS ∨
        (ClockService.authorize_client_write angleHandle e).authorizationReply
          = AUTH_CALLBACK_REPLY_ATTERR_INVALID_OFFSET ∨
        (ClockService.authorize_client_write angleHandle e).authorizationReply
          = AUTH_CALLBACK_REPLY_ATTERR_INVALID_ATT_VAL_LENGTH ∨
        (ClockService.authorize_client_write angleHandle e).authorizationReply
          = AUTH_CALLBACK_REPLY_ATTERR_WRITE_NOT_PERMITTED) := by
  have h60 : (e.data 0 ≥ 60) ↔ 60 ≤ (e.data 0).val := Iff.rfl
  have h24 : (e.data 0 ≥ 24) ↔ 24 ≤ (e.data 0).val := Iff.rfl
  refine ⟨?_, ?_, ?_⟩
  · unfold ClockService.authorize_client_write
    by_cases ho : e.offset = 0 <;> by_cases hl : e.len = 1 <;>
      by_cases hd : 60 ≤ (e.data 0).val <;> by_cases ha : 24 ≤ (e.data 0).val <;>
      by_cases hh : e.handle = angleHandle <;>
      simp [ho, hl, hd, ha, hh, h60, h24] <;> omega
  · unfold ClockService.authorize_client_write
    by_cases hd : 60 ≤ (e.data 0).val <;> by_cases ha : 24 ≤ (e.data 0).val <;>
      by_cases hh : e.handle = angleHandle <;>
      simp [hd, ha, hh, h60, h24] <;> split_ifs <;> first | rfl | omega
  · unfold ClockService.authorize_client_write
    split_ifs <;> simp

end Bluetooth

namespace Radar

open Bluetooth.GattAuthCallbackReply_t

/-! ## Write authorization in main.cpp -/

/-- C12: the write-authorization hook of main.cpp changes nothing.  A request
at offset 3, or of length 2 at offset 0, leaves the hook with the reply it
arrived with (success), not with the invalid-offset or invalid-length reply. -/
theorem authorize_hook_does_nothing (s : RadarService)
    (e : Bluetooth.GattWriteAuthCallbackParams) :
    s.authorize_client_write e = (s, e) ∧
      (s.authorize_client_write (Bluetooth.request 20 3 1 (fun _ => 45))).2.authorizationReply
        = AUTH_CALLBACK_REPLY_SUCCESS ∧
      (s.authorize_client_write (Bluetooth.request 20 3 1 (fun _ => 45))).2.authorizationReply
        ≠ AUTH_CALLBACK_REPLY_ATTERR_INVALID_OFFSET ∧
      (s.authorize_client_write (Bluetooth.request 20 0 2 (fun _ => 45))).2.authorizationReply
        = AUTH_CALLBACK_REPLY_SUCCESS ∧
      (s.authorize_client_write (Bluetooth.request 20 0 2 (fun _ => 45))).2.authorizationReply
        ≠ AUTH_CALLBACK_REPLY_ATTERR_INVALID_ATT_VAL_LENGTH := by
  refine ⟨rfl, rfl, ?_, rfl, ?_⟩
  · simp [RadarService.authorize_client_write, Bluetooth.request]
  · simp [RadarService.authorize_client_write, Bluetooth.request]

/-! ## Threshold writes -/

/-- C13. After `onDataWritten` has handled a write to the threshold cell (whose
handle differs from that of the running cell) whose first byte is `v`, whatever
the rest of the buffer, the offset and the length, in particular a one-byte
write of `v` at offset 0, the threshold is `v`, the next tick compares the
distance with `v`, and the angle, the direction, the distance and `running_id`
are what they were. -/
theorem threshold_write_sets_threshold (hs : CharHandles) (s : RadarService)
    (p : GattWriteCallbackParams) (v : Byte) (id : Int) (d : Nat)
    (hne : hs.running ≠ hs.threshold) (hp : p.handle = hs.threshold) (hv : p.data 0 = v) :
    (s.onDataWritten hs p id).threshold = (v.val : Int) ∧
      ((s.onDataWritten hs p id).loop d).ledPin
        = (if distanceOfDuration d ≤ (v.val : Int) then 1 else 0) ∧
      (s.onDataWritten hs p id).angle = s.angle ∧
      (s.onDataWritten hs p id).direction = s.direction ∧
      (s.onDataWritten hs p id).distance = s.distance ∧
      (s.onDataWritten hs p id).running_id = s.running_id := by
  have hne2 : ¬ hs.threshold = hs.running := fun h => hne h.symm
  have hthr : (s.onDataWritten hs p id).threshold = (v.val : Int) := by
    simp [RadarService.onDataWritten, hp, hne2, hv]
  refine ⟨hthr, ?_, ?_, ?_, ?_, ?_⟩
  · rw [loop_ledPin, hthr]
  · exact onDataWritten_angle hs s _ id
  · simp [RadarService.onDataWritten, hp, hne2]
  · simp [RadarService.onDataWritten, hp, hne2]
  · simp [RadarService.onDataWritten, hp, hne2]

/-- Witness for C13: the byte 45 written to the threshold cell, the buffer
holding other bytes after it. -/
theorem threshold_write_sets_threshold_witness :
    demoHandles.running ≠ demoHandles.threshold ∧
      (thresholdWrite45).handle = demoHandles.threshold ∧
      (thresholdWrite45).data 0 = 45 ∧
      (thresholdWrite45).data 1 = 200 ∧
      (RadarService.init.onDataWritten demoHandles thresholdWrite45 9).threshold = 45 :=
  ⟨by decide, rfl, rfl, rfl,
    (threshold_write_sets_threshold demoHandles RadarService.init thresholdWrite45 45 9 0
      (by decide) rfl rfl).1⟩

/-! ## Duration to distance -/

end Radar

namespace Radar

/-! ## The sweep is a triangle wave -/

theorem triangle_eq (n : Nat) :
    triangle n = if n % 360 ≤ 180 then ((n % 360 : Nat) : Int) else 360 - ((n % 360 : Nat) : Int) := by
  unfold triangle
  split_ifs with h
  · rw [abs_of_nonneg (by omega)]; omega
  · rw [abs_of_neg (by omega)]; omega

theorem phase_loop (s : RadarService) (k : Nat) (d : Nat)
    (ha : s.angle = triangle k) (hd : s.direction = decide (k % 360 < 180)) :
    (s.loop d).angle = triangle (k + 1) ∧
      (s.loop d).direction = decide ((k + 1) % 360 < 180) := by
  rw [loop_direction, loop_angle, ha, hd, triangle_eq, triangle_eq]
  by_cases h : k % 360 < 180
  · have h1 : k % 360 ≤ 180 := by omega
    simp only [h, h1, decide_True, if_true, Bool.not_true]
    by_cases h2 : k % 360 = 179
    · have h3 : (k + 1) % 360 = 180 := by omega
      simp [h3, h2]
    · have h3 : (k + 1) % 360 < 180 := by omega
      have h4 : (k + 1) % 360 ≤ 180 := by omega
      have h5 : (k + 1) % 360 = k % 360 + 1 := by omega
      have h6 : ¬ (((k % 360 : Nat) : Int) + 1 = 180 ∨ ((k % 360 : Nat) : Int) + 1 = 0) := by omega
      simp only [h3, h4, if_true, decide_True, h6, if_false]
      refine ⟨by omega, trivial⟩
  · by_cases h1 : k % 360 = 180
    · have h3 : (k + 1) % 360 = 181 := by omega
      simp [h1, h3]
    · have h2 : ¬ k % 360 ≤ 180 := by omega
      simp only [h, h2, decide_False, if_false, Bool.not_false, Bool.false_eq_true]
      by_cases h3 : k % 360 = 359
      · have h4 : (k + 1) % 360 = 0 := by omega
        simp [h3, h4]
      · have h4 : (k + 1) % 360 = k % 360 + 1 := by omega
        have h5 : ¬ (k + 1) % 360 ≤ 180 := by omega
        have h6 : ¬ (k + 1) % 360 < 180 := by omega
        have h7 : ¬ (360 - ((k % 360 : Nat) : Int) - 1 = 180 ∨
            360 - ((k % 360 : Nat) : Int) - 1 = 0) := by omega
        simp only [h5, h6, if_false, decide_False, h7]
        refine ⟨by omega, trivial⟩

theorem phase_runTicks (inputs : List (Int × Nat)) :
    ∀ (s : RadarService) (k : Nat), s.angle = triangle k →
      s.direction = decide (k % 360 < 180) →
      (runTicks s inputs).angle = triangle (k + inputs.length) ∧
        (runTicks s inputs).direction = decide ((k + inputs.length) % 360 < 180) := by
  induction inputs with
  | nil => intro s k ha hd; exact ⟨ha, hd⟩
  | cons i rest ih =>
    intro s k ha hd
    have hstep := phase_loop { s with threshold := i.1 } k i.2 ha hd
    have := ih _ (k + 1) hstep.1 hstep.2
    rw [List.length_cons, show k + (rest.length + 1) = k + 1 + rest.length by omega]
    exact this

/-- C18. From the initial scan state, after `n` ticks (whatever the measured
durations and thresholds) the angle is `180 - |180 - (n mod 360)|` and the
direction is increasing exactly when `n mod 360 < 180`; the pair (angle,
direction) is the initial pair (0, increasing) exactly when `n` is a multiple
of 360, so it comes back after 360 ticks and after no smaller positive
number. -/
theorem sweep_is_triangle_wave (inputs : List (Int × Nat)) :
    (runTicks RadarService.init inputs).angle = triangle inputs.length ∧
      (runTicks RadarService.init inputs).angle
        = 180 - |180 - ((inputs.length % 360 : Nat) : Int)| ∧
      (runTicks RadarService.init inputs).direction = decide (inputs.length % 360 < 180) ∧
      (((runTicks RadarService.init inputs).angle = RadarService.init.angle ∧
          (runTicks RadarService.init inputs).direction = RadarService.init.direction) ↔
        inputs.length % 360 = 0) := by
  have h := phase_runTicks inputs RadarService.init 0
    (by simp [RadarService.init, triangle]) (by simp [RadarService.init])
  rw [Nat.zero_add] at h
  refine ⟨h.1, h.1, h.2, ?_⟩
  rw [h.1, h.2, triangle_eq]
  simp only [RadarService.init]
  constructor
  · rintro ⟨ha, _⟩
    split_ifs at ha <;> omega
  · intro h0
    simp [h0]

end Radar

namespace Claude

/-! ## Servo mapping -/

theorem setAngle_eq (angle : Int) :
    SG90Servo.setAngle angle = 500 + (max 0 (min angle 180) * 1900) / 180 := by
  unfold SG90Servo.setAngle SERVO_PULSE_MIN_US SERVO_PULSE_MAX_US
  simp only
  rw [Int.tdiv_eq_ediv (by positivity) (by decide)]
  norm_num

theorem setAngle_monotone : Monotone SG90Servo.setAngle := by
  intro a b h
  rw [setAngle_eq, setAngle_eq]
  have h1 : max 0 (min a 180) * 1900 ≤ max 0 (min b 180) * 1900 := by omega
  have := Int.ediv_le_ediv (show (0 : Int) < 180 by decide) h1
  omega

/-- C14. For every integer angle `SG90Servo::setAngle` commands the pulse width
`500 + (a * 1900) / 180`, `a` being the angle clamped to `[0, 180]`; the pulse
width lies in `[500, 2400]`, is 500 for every angle at most 0, 2400 for every
angle at least 180, and is monotone in the angle. -/
theorem setAngle_pulse_width (angle : Int) :
    SG90Servo.setAngle angle = 500 + (max 0 (min angle 180) * 1900) / 180 ∧
      500 ≤ SG90Servo.setAngle angle ∧ SG90Servo.setAngle angle ≤ 2400 ∧
      SG90Servo.setAngle (min angle 0) = 500 ∧
      SG90Servo.setAngle (max angle 180) = 2400 ∧
      Monotone SG90Servo.setAngle := by
  refine ⟨setAngle_eq angle, ?_, ?_, ?_, ?_, setAngle_monotone⟩
  · rw [setAngle_eq]; omega
  · rw [setAngle_eq]; omega
  · rw [setAngle_eq]
    have : max 0 (min (min angle 0) 180) = 0 := by omega
    rw [this]; decide
  · rw [setAngle_eq]
    have : max 0 (min (max angle 180) 180) = 180 := by omega
    rw [this]; decide

/-! ## Publishing on significant change -/

/-- C16. On a tick of `RadarService::update` while running, the distance and
angle cells are written exactly when `|distance - _lastDistance| > 2` or
`|_currentAngle - _lastAngle| > 2`; then the two writes carry the measured
distance and the current angle and `_lastDistance`, `_lastAngle` take these
values; otherwise nothing is written and both are unchanged. -/
theorem update_publishes_on_change (s : RadarService) (distance : Int)
    (hrun : s._running = true) :
    (s.update distance).2
        = (if |distance - s._lastDistance| > 2 ∨ |s._currentAngle - s._lastAngle| > 2 then
            [(Characteristic.distance, distance), (Characteristic.angle, s._currentAngle)]
          else []) ∧
      ((s.update distance).2 ≠ [] ↔
        (|distance - s._lastDistance| > 2 ∨ |s._currentAngle - s._lastAngle| > 2)) ∧
      (s.update distance).1._lastDistance
        = (if |distance - s._lastDistance| > 2 ∨ |s._currentAngle - s._lastAngle| > 2 then
            distance else s._lastDistance) ∧
      (s.update distance).1._lastAngle
        = (if |distance - s._lastDistance| > 2 ∨ |s._currentAngle - s._lastAngle| > 2 then
            s._currentAngle else s._lastAngle) := by
  unfold RadarService.update
  simp only [hrun, Bool.not_true, Bool.false_eq_true, if_false]
  by_cases hc : |distance - s._lastDistance| > 2 ∨ |s._currentAngle - s._lastAngle| > 2
  · simp only [hc, if_true]
    refine ⟨trivial, by simp, ?_, ?_⟩ <;> split_ifs <;> rfl
  · simp only [hc, if_false]
    refine ⟨trivial, by simp, ?_, ?_⟩ <;> split_ifs <;> rfl

/-- Witness for C16: the first tick after construction, measuring 25. -/
theorem update_publishes_on_change_witness :
    RadarService.init._running = true ∧
      (RadarService.init.update 25).2
        = [(Characteristic.distance, 25), (Characteristic.angle, 0)] :=
  ⟨rfl, by
    rw [(update_publishes_on_change RadarService.init 25 rfl).1]
    decide⟩

end Claude

namespace Claude

/-! ## The bounded waits of the sensor -/

theorem waitEchoEnd_eq (echo : Nat → Bool) :
    ∀ fuel c i, HC_SR04.waitEchoEnd echo fuel c i
      = HC_SR04.waitEchoStart (fun j => !echo j) fuel c i := by
  intro fuel
  induction fuel with
  | zero => intro c i; rfl
  | succ n ih =>
    intro c i
    unfold HC_SR04.waitEchoEnd HC_SR04.waitEchoStart
    rw [ih]
    cases echo i <;> simp

/-- With a counter within the budget and enough fuel, the first wait returns:
either by timeout after exactly the readings the budget allows, all of them
low, or on the first high reading. -/
theorem waitEchoStart_spec (echo : Nat → Bool) :
    ∀ fuel c i, c ≤ 23200 → 23201 ≤ fuel + c →
      ∃ w, HC_SR04.waitEchoStart echo fuel c i = some w ∧
        (∀ n, w = Wait.timeout n →
          n + c = i + 23201 ∧ ∀ j, i ≤ j → j < n → echo j = false) ∧
        (∀ cnt n, w = Wait.ended cnt n →
          i < n ∧ n + c ≤ i + 23201 ∧ echo (n - 1) = true ∧
            (∀ j, i ≤ j → j + 1 < n → echo j = false) ∧ cnt + i + 1 = c + n) := by
  intro fuel
  induction fuel with
  | zero => intro c i hc hf; omega
  | succ m ih =>
    intro c i hc hf
    unfold HC_SR04.waitEchoStart
    cases he : echo i with
    | true =>
      refine ⟨Wait.ended c (i + 1), by simp, ?_, ?_⟩
      · intro n hn; cases hn
      · intro cnt n hn
        cases hn
        refine ⟨by omega, by omega, by simpa using he, ?_, by omega⟩
        intro j h1 h2; omega
    | false =>
      by_cases hlim : c + 1 > 23200
      · refine ⟨Wait.timeout (i + 1), by simp [hlim], ?_, ?_⟩
        · intro n hn
          cases hn
          refine ⟨by omega, ?_⟩
          intro j h1 h2
          have : j = i := by omega
          rw [this]; exact he
        · intro cnt n hn; cases hn
      · obtain ⟨w, hw, ht, hd⟩ := ih (c + 1) (i + 1) (by omega) (by omega)
        refine ⟨w, by simp [hlim, hw], ?_, ?_⟩
        · intro n hn
          obtain ⟨h1, h2⟩ := ht n hn
          refine ⟨by omega, ?_⟩
          intro j hj1 hj2
          by_cases hji : j = i
          · rw [hji]; exact he
          · exact h2 j (by omega) hj2
        · intro cnt n hn
          obtain ⟨h1, h2, h3, h4, h5⟩ := hd cnt n hn
          refine ⟨by omega, by omega, h3, ?_, by omega⟩
          intro j hj1 hj2
          by_cases hji : j = i
          · rw [hji]; exact he
          · exact h4 j (by omega) hj2

end Claude

namespace Claude

/-- C15. Whatever the echo readings, `HC_SR04::measureDistance` returns (fuel
23201 per wait is enough) after at most `2 * 23201` readings; it returns -1
exactly when one of the two waits exceeds its budget of 23200.  Otherwise the
echo goes high at a reading `k` within the budget, stays high for exactly
`pulseWidth` further readings, `pulseWidth` at most 23200, and goes low; the
result is `pulseWidth * 34 / 2000`, a value in `[0, 394]`, obtained after
`k + pulseWidth + 2` readings. -/
theorem measureDistance_terminates (echo : Nat → Bool) (fuel : Nat) (hfuel : 23201 ≤ fuel) :
    ∃ r, HC_SR04.measureDistance echo fuel = some r ∧
      r.polls ≤ 2 * 23201 ∧
      (r.value = -1 ↔ ExceedsBudget echo) ∧
      (ExceedsBudget echo ∨
        ∃ k pulseWidth : Nat,
          k < 23201 ∧ (∀ i, i < k → echo i = false) ∧ echo k = true ∧
          pulseWidth ≤ 23200 ∧ (∀ j, j < pulseWidth → echo (k + 1 + j) = true) ∧
          echo (k + 1 + pulseWidth) = false ∧
          r.value = ((pulseWidth : Int) * 34) / 2000 ∧ 0 ≤ r.value ∧ r.value ≤ 394 ∧
          r.polls = k + pulseWidth + 2) := by
  obtain ⟨w1, hw1, ht1, hd1⟩ := waitEchoStart_spec echo fuel 0 0 (by omega) (by omega)
  cases w1 with
  | timeout n =>
    obtain ⟨hn, hlow⟩ := ht1 n rfl
    have hex : ExceedsBudget echo := Or.inl (fun i hi => hlow i (by omega) (by omega))
    refine ⟨{ value := -1, polls := n }, by simp [HC_SR04.measureDistance, hw1], ?_, ?_, ?_⟩
    · show n ≤ 2 * 23201
      omega
    · exact ⟨fun _ => hex, fun _ => rfl⟩
    · exact Or.inl hex
  | ended cnt n =>
    obtain ⟨hpos, hn, hhigh, hlow, _⟩ := hd1 cnt n rfl
    obtain ⟨w2, hw2, ht2, hd2⟩ :=
      waitEchoStart_spec (fun j => !echo j) fuel 0 n (by omega) (by omega)
    rw [← waitEchoEnd_eq] at hw2
    cases w2 with
    | timeout m =>
      obtain ⟨hm, hall⟩ := ht2 m rfl
      have hex : ExceedsBudget echo := by
        refine Or.inr ⟨n - 1, by omega, ?_, hhigh, ?_⟩
        · intro i hi
          exact hlow i (by omega) (by omega)
        · intro i hi
          have := hall (n - 1 + 1 + i) (by omega) (by omega)
          simpa using this
      refine ⟨{ value := -1, polls := m }, by simp [HC_SR04.measureDistance, hw1, hw2],
        ?_, ?_, ?_⟩
      · show m ≤ 2 * 23201
        omega
      · exact ⟨fun _ => hex, fun _ => rfl⟩
      · exact Or.inl hex
    | ended pw m =>
      obtain ⟨hnm, hm, hend, hmid, hpw⟩ := hd2 pw m rfl
      have hend2 : echo (m - 1) = false := by simpa using hend
      have hpwle : pw ≤ 23200 := by omega
      have hv0 : 0 ≤ distanceOfPulse pw := by
        unfold distanceOfPulse; omega
      have hv1 : distanceOfPulse pw ≤ 394 := by
        unfold distanceOfPulse; omega
      refine ⟨{ value := distanceOfPulse pw, polls := m },
        by simp [HC_SR04.measureDistance, hw1, hw2], ?_, ?_, ?_⟩
      · show m ≤ 2 * 23201
        omega
      · constructor
        · intro hneg
          have : distanceOfPulse pw = -1 := hneg
          omega
        · intro hex
          exfalso
          rcases hex with hall | ⟨k, hk, hklow, hkhigh, hkall⟩
          · have := hall (n - 1) (by omega)
            rw [hhigh] at this
            exact Bool.noConfusion this
          · have hkn : k = n - 1 := by
              rcases Nat.lt_trichotomy k (n - 1) with h | h | h
              · have := hlow k (by omega) (by omega)
                rw [hkhigh] at this
                exact Bool.noConfusion this
              · exact h
              · have := hklow (n - 1) h
                rw [hhigh] at this
                exact Bool.noConfusion this
            have := hkall (m - 1 - n) (by omega)
            rw [hkn, show n - 1 + 1 + (m - 1 - n) = m - 1 by omega, hend2] at this
            exact Bool.noConfusion this
      · refine Or.inr ⟨n - 1, pw, by omega, ?_, hhigh, hpwle, ?_, ?_, rfl, hv0, hv1, ?_⟩
        · intro i hi
          exact hlow i (by omega) (by omega)
        · intro j hj
          have := hmid (n - 1 + 1 + j) (by omega) (by omega)
          simpa using this
        · rw [show n - 1 + 1 + pw = m - 1 by omega]
          exact hend2
        · show m = n - 1 + pw + 2
          omega

/-- Witness for C15: fuel 23201 on an echo that is low for 3 readings, high for
60 and low afterwards. -/
theorem measureDistance_terminates_witness :
    (23201 : Nat) ≤ 23201 ∧
      ∃ r, HC_SR04.measureDistance echoPulse 23201 = some r ∧
        r.polls ≤ 2 * 23201 ∧
        (r.value = -1 ↔ ExceedsBudget echoPulse) ∧
        (ExceedsBudget echoPulse ∨
          ∃ k pulseWidth : Nat,
            k < 23201 ∧ (∀ i, i < k → echoPulse i = false) ∧ echoPulse k = true ∧
            pulseWidth ≤ 23200 ∧ (∀ j, j < pulseWidth → echoPulse (k + 1 + j) = true) ∧
            echoPulse (k + 1 + pulseWidth) = false ∧
            r.value = ((pulseWidth : Int) * 34) / 2000 ∧ 0 ≤ r.value ∧ r.value ≤ 394 ∧
            r.polls = k + pulseWidth + 2) :=
  ⟨le_refl _, measureDistance_terminates echoPulse 23201 (le_refl _)⟩

/-- The sensor on a pulse of 60 high readings: the first high reading ends the
first wait, the remaining 59 are counted, and the result is 1. -/
theorem measureDistance_echoPulse :
    HC_SR04.measureDistance echoPulse 100 = some { value := 1, polls := 64 } := by
  decide

end Claude
